import Mathlib

/-!
Verification of the MediaCrawler-API-Server core against its specification.

The Python sources are embedded shallowly:

* Python dicts keyed by strings become association lists (`List (String × α)`)
  with insertion-order preserving update (`setKey`), first-hit `lookup?` and
  `eraseKey` for `del`.
* Python floats (progress percentages, wall-clock seconds) are modelled as `ℚ`;
  Python ints as `ℤ`/`ℕ`.
* Regular-expression matching is embedded by direct scanners for the concrete
  patterns that occur in the source.  Each pattern is a fixed sequence of
  literal pieces, whitespace runs, digit runs and lazy gaps; for these shapes a
  maximal-munch scanner is equivalent to the backtracking regex engine because
  every literal suffix starts with a character that belongs to neither the
  digit class nor the whitespace class.
* Exceptions are modelled by threading an `Option String` (the pending Python
  exception) through the translated statement sequence.
-/

/-! ## Association-list model of Python dicts -/

/-- First value stored under key `k`, like `d.get(k)` / `d[k]` on a dict. -/
def lookup? {α : Type} : List (String × α) → String → Option α
  | [], _ => none
  | (k1, v1) :: rest, k => if k1 = k then some v1 else lookup? rest k

/-- Dict update `d[k] = v`: replace in place when present, else append. -/
def setKey {α : Type} : List (String × α) → String → α → List (String × α)
  | [], k, v => [(k, v)]
  | (k1, v1) :: rest, k, v =>
      if k1 = k then (k, v) :: rest else (k1, v1) :: setKey rest k v

/-- Dict deletion `del d[k]` (removes the first binding of `k`). -/
def eraseKey {α : Type} : List (String × α) → String → List (String × α)
  | [], _ => []
  | (k1, v1) :: rest, k => if k1 = k then rest else (k1, v1) :: eraseKey rest k

/-- Keys of a dict, in insertion order. -/
def keysOf {α : Type} (l : List (String × α)) : List String := l.map Prod.fst

/-- Python `dict.update(other)`: apply every binding of `other` in order. -/
def dictUpdateAll {α : Type} (d upd : List (String × α)) : List (String × α) :=
  upd.foldl (fun acc kv => setKey acc kv.1 kv.2) d

/-! ## CookiesManager (src/app/core/cookies_manager.py)

One JSON file per platform.  The file content is modelled by `CookiesFileD`;
an absent file is `none`.  Wall-clock instants are `ℤ` epoch seconds, exactly
as the source stores them (`int(time.time())`). -/

/-- Content of a `<platform>_cookies.json` cache file.  `cookies` and
`saved_time` are read back with `dict.get`, so either key may be absent. -/
structure CookiesFileD where
  platform : String
  cookies : Option String
  task_id : Option String
  saved_time : Option ℤ
deriving DecidableEq, Repr

/-- CookiesManager.save_cookies: the file written for `platform` (the
human-readable `saved_date` field is wall-clock formatting and is omitted). -/
def saveCookies (platform cookies : String) (task_id : Option String)
    (now : ℤ) : CookiesFileD :=
  { platform := platform
    cookies := some cookies
    task_id := task_id
    saved_time := some now }

/-- CookiesManager.load_cookies: returns the cached blob unless the file is
absent, older than `max_age_days`, or its `cookies` value is falsy.  The age
test divides by `24 * 3600` exactly as the source does. -/
def loadCookies (file : Option CookiesFileD) (now : ℤ) (max_age_days : ℤ) :
    Option String :=
  match file with
  | none => none
  | some d =>
    let saved_time : ℤ := d.saved_time.getD 0
    let age_days : ℚ := ((now - saved_time : ℤ) : ℚ) / (24 * 3600)
    if age_days > (max_age_days : ℚ) then none
    else
      -- source: `cookies = cookies_data.get("cookies"); if cookies: ...`
      match d.cookies with
      | some c => if c ≠ "" then some c else none
      | none => none

/-! ## Scanners for the regular expressions used by the adapter

The adapter uses `re.search` / `re.findall` with `re.IGNORECASE` on a fixed
set of patterns.  Each pattern alternates literals, `\s*` runs, `(\d+)` groups
and lazy `.*?` gaps, and every literal that follows a digit or whitespace run
starts with a character outside both classes, so greedy maximal-munch scanning
needs no backtracking and agrees with the regex engine. -/

/-- Python `\s` for the characters occurring in crawler output. -/
def isPySpace (c : Char) : Bool :=
  c = ' ' || c = '\t' || c = '\n' || c = '\r' || c = '\x0b' || c = '\x0c'

/-- Python `\d` (ASCII digits, the only digits the crawler emits). -/
def isPyDigit (c : Char) : Bool := '0' ≤ c && c ≤ '9'

/-- Numeric value of a decimal digit string, like Python `int(...)`. -/
def natOfDigits (l : List Char) : ℕ :=
  l.foldl (fun a c => a * 10 + (c.toNat - '0'.toNat)) 0

/-- Greedy `\s*`. -/
def skipSpaces (s : List Char) : List Char := s.dropWhile isPySpace

/-- Greedy `(\d+)`: the maximal leading digit run and the rest. -/
def matchDigits1 (s : List Char) : Option (ℕ × List Char) :=
  let run := s.takeWhile isPyDigit
  if run.isEmpty then none else some (natOfDigits run, s.dropWhile isPyDigit)

/-- Match a literal piece of a pattern at the start of the input. -/
def matchLit : List Char → List Char → Option (List Char)
  | [], s => some s
  | _ :: _, [] => none
  | c :: cs, d :: ds => if c = d then matchLit cs ds else none

/-- ASCII lower-casing, for literals matched under `re.IGNORECASE`. -/
def lowerAscii (c : Char) : Char :=
  if 'A' ≤ c && c ≤ 'Z' then Char.ofNat (c.toNat + 32) else c

/-- Case-insensitive literal match (ASCII folding, as the literals are ASCII). -/
def matchLitCI : List Char → List Char → Option (List Char)
  | [], s => some s
  | _ :: _, [] => none
  | c :: cs, d :: ds => if lowerAscii c = lowerAscii d then matchLitCI cs ds else none

/-- Semantics of `re.search`: try the pattern body `k` at each position, left
to right, and return the first (leftmost) hit. -/
def scanAll {α : Type} (k : List Char → Option α) : List Char → Option α
  | [] => k []
  | c :: cs =>
    match k (c :: cs) with
    | some r => some r
    | none => scanAll k cs

/-- Lazy gap `.*?` followed by the pattern body `k`: try `k` at each offset,
never letting the gap cross a newline (`.` does not match `\n`). -/
def lazyScanNoNL {α : Type} (k : List Char → Option α) : List Char → Option α
  | [] => k []
  | c :: cs =>
    match k (c :: cs) with
    | some r => some r
    | none => if c = '\n' then none else lazyScanNoNL k cs

/-- Pattern body `lit1\s*(\d+)\s*lit2`, returning the captured number and the
input remaining after the whole match. -/
def tryNumBetween (lit1 lit2 : List Char) (s : List Char) : Option (ℕ × List Char) := do
  let r1 ← matchLit lit1 s
  let (n, r2) ← matchDigits1 (skipSpaces r1)
  let r3 ← matchLit lit2 (skipSpaces r2)
  pure (n, r3)

/-- Case-insensitive variant of `tryNumBetween` (for `crawled\s*(\d+)\s*items`). -/
def tryNumBetweenCI (lit1 lit2 : List Char) (s : List Char) : Option (ℕ × List Char) := do
  let r1 ← matchLitCI lit1 s
  let (n, r2) ← matchDigits1 (skipSpaces r1)
  let r3 ← matchLitCI lit2 (skipSpaces r2)
  pure (n, r3)

/-- Pattern body `total[:\s]*(\d+)`. -/
def tryTotalCount (s : List Char) : Option (ℕ × List Char) := do
  let r1 ← matchLitCI "total".data s
  let (n, r2) ← matchDigits1 (r1.dropWhile (fun c => c = ':' || isPySpace c))
  pure (n, r2)

/-- Pattern body `lit1.*?(\d+)\s*lit2` (for `保存.*?(\d+)\s*条` and
`完成.*?(\d+)\s*个`). -/
def tryLazyNumSuffix (lit1 lit2 : List Char) (s : List Char) : Option (ℕ × List Char) := do
  let r1 ← matchLit lit1 s
  lazyScanNoNL (fun t => do
    let (n, r2) ← matchDigits1 t
    let r3 ← matchLit lit2 (skipSpaces r2)
    pure (n, r3)) r1

/-- Semantics of `re.findall` for the count patterns: scan left to right,
collect each captured number and continue after the match.  The fuel is the
input length; every pattern consumes at least one character per match. -/
def findMatchesAux (t : List Char → Option (ℕ × List Char)) :
    ℕ → List Char → List ℕ
  | 0, _ => []
  | _ + 1, [] => []
  | fuel + 1, c :: cs =>
    match t (c :: cs) with
    | some (n, r) => n :: findMatchesAux t fuel r
    | none => findMatchesAux t fuel cs

/-- All captured numbers of one pattern over a whole output, in match order. -/
def findMatches (t : List Char → Option (ℕ × List Char)) (s : String) : List ℕ :=
  findMatchesAux t s.data.length s.data

/-- Plain-substring `re.search` (patterns that are bare literals). -/
def containsSub (line lit : String) : Bool :=
  (scanAll (fun s => matchLit lit.data s) line.data).isSome

/-- Case-insensitive substring search (literal patterns under IGNORECASE). -/
def containsSubCI (line lit : String) : Bool :=
  (scanAll (fun s => matchLitCI lit.data s) line.data).isSome

/-! ## MediaCrawlerAdapter._parse_data_count_from_output
(src/app/crawler/adapter.py, lines 533-555) -/

/-- Python `max(int(m) for m in matches)` over a nonempty list of naturals. -/
def maxOfList (ns : List ℕ) : ℕ := ns.foldl max 0

/-- The six completion-phrase patterns, in source order; the first pattern
with any match decides the result (maximum of its own matches), later
patterns are not consulted; no match at all gives 0. -/
def parseDataCountFromOutput (output : String) : ℕ :=
  let results : List (List ℕ) :=
    [ findMatches (tryNumBetween "共爬取".data "条".data) output
    , findMatches (tryNumBetween "获取".data "条数据".data) output
    , findMatches (tryNumBetweenCI "crawled".data "items".data) output
    , findMatches tryTotalCount output
    , findMatches (tryLazyNumSuffix "保存".data "条".data) output
    , findMatches (tryLazyNumSuffix "完成".data "个".data) output ]
  firstNonEmptyMax results
where
  firstNonEmptyMax : List (List ℕ) → ℕ
    | [] => 0
    | ns :: rest => if ns.isEmpty then firstNonEmptyMax rest else maxOfList ns

/-! ## TaskLogger progress state (src/app/core/logging.py, lines 52-159)

`last_update` and `estimated_remaining_time` are recomputed from the wall
clock on every update; they carry no claim-relevant information and are left
out of the embedding. -/

/-- Mutable progress snapshot of one task (`TaskProgress` dataclass). -/
structure TaskProgress where
  task_id : String
  platform : String
  current_stage : String
  progress_percent : ℚ
  items_total : ℤ
  items_completed : ℤ
  items_failed : ℤ
  current_item : Option String
deriving DecidableEq, Repr

/-- Snapshot created by `TaskLogger.__init__`. -/
def initProgress (task_id platform : String) : TaskProgress :=
  { task_id := task_id
    platform := platform
    current_stage := "initializing"
    progress_percent := 0
    items_total := 0
    items_completed := 0
    items_failed := 0
    current_item := none }

/-- TaskLogger.update_progress.  The stage and current-item parameters are
guarded by Python truthiness (`if current_stage:`), so `None` and the empty
string are both skipped; the numeric parameters use `is not None`.  No value
is clamped. -/
def updateProgress (p : TaskProgress) (current_stage : Option String)
    (progress_percent : Option ℚ) (items_total items_completed items_failed : Option ℤ)
    (current_item : Option String) : TaskProgress :=
  let p := match current_stage with
    | some s => if s ≠ "" then { p with current_stage := s } else p
    | none => p
  let p := match progress_percent with
    | some q => { p with progress_percent := q }
    | none => p
  let p := match items_total with
    | some n => { p with items_total := n }
    | none => p
  let p := match items_completed with
    | some n => { p with items_completed := n }
    | none => p
  let p := match items_failed with
    | some n => { p with items_failed := n }
    | none => p
  match current_item with
  | some s => if s ≠ "" then { p with current_item := some s } else p
  | none => p

/-! ## MediaCrawlerAdapter._parse_progress_from_line
(src/app/crawler/adapter.py, lines 425-531)

The method performs a first-match-wins cascade over pattern groups and calls
`task_logger.update_progress` / `task_logger.log_event`.  Those calls are
reified as a list of actions, applied to the snapshot by `applyAction`. -/

/-- Python `min` on two rationals (kept as an executable conditional so that
concrete snapshots evaluate inside proofs). -/
def pymin (a b : ℚ) : ℚ := if a ≤ b then a else b

/-- One side effect issued by the progress-parsing step. -/
inductive PAction where
  | update (stage : String) (percent : ℚ) (total completed : Option ℕ)
  | logError (msg : String)
  | logInfo (msg : String)
deriving DecidableEq, Repr

/-- Search for `正在爬取第\s*(\d+)\s*页` (group unused by the source: its
`percent` entry is `None` and the pattern does not contain `已爬取`). -/
def matchesPageCount (line : String) : Bool :=
  (scanAll (fun s => do
    let r1 ← matchLit "正在爬取第".data s
    let (_, r2) ← matchDigits1 (skipSpaces r1)
    let _ ← matchLit "页".data (skipSpaces r2)
    pure ()) line.data).isSome

/-- Search for `已爬取\s*(\d+)\s*/\s*(\d+)`, returning the two groups of the
leftmost match. -/
def searchCrawledPair (line : String) : Option (ℕ × ℕ) :=
  scanAll (fun s => do
    let r1 ← matchLit "已爬取".data s
    let (a, r2) ← matchDigits1 (skipSpaces r1)
    let r3 ← matchLit ['/'] (skipSpaces r2)
    let (b, _) ← matchDigits1 (skipSpaces r3)
    pure (a, b)) line.data

/-- Search for `爬取.*?(\d+)\s*条.*?共\s*(\d+)` (groups unused by the source:
its `percent` entry is `None` and the pattern does not contain `已爬取`). -/
def matchesCrawlTotal (line : String) : Bool :=
  (scanAll (fun s => do
    let r1 ← matchLit "爬取".data s
    lazyScanNoNL (fun t => do
      let (_, r2) ← matchDigits1 t
      let r3 ← matchLit "条".data (skipSpaces r2)
      lazyScanNoNL (fun u => do
        let r4 ← matchLit "共".data u
        let (_, _) ← matchDigits1 (skipSpaces r4)
        pure ()) r3) r1) line.data).isSome

/-- Search for `保存.*?(\d+)\s*条`, returning the group of the leftmost match. -/
def searchSaveCount (line : String) : Option ℕ :=
  scanAll (fun s => do
    let r1 ← matchLit "保存".data s
    lazyScanNoNL (fun t => do
      let (n, r2) ← matchDigits1 t
      let _ ← matchLit "条".data (skipSpaces r2)
      pure n) r1) line.data

/-- Literals of the error-pattern group (`Error`/`Exception` are matched under
IGNORECASE). -/
def errorLits : List String := ["错误", "失败", "异常", "Error", "Exception"]

/-- Literals of the noteworthy-information group. -/
def importantLits : List String := ["开始", "完成", "成功", "关键词", "用户", "内容"]

/-- The full first-match-wins cascade of `_parse_progress_from_line`:
login patterns, crawl patterns, save patterns, error patterns, then the
noteworthy patterns; the first group entry that matches decides the actions
and the method returns. -/
def parseProgressLine (line : String) : List PAction :=
  -- 1. login patterns
  if containsSub line "开始登录" then [.update "logging_in" 20 none none]
  else if containsSub line "登录成功" then [.update "logged_in" 30 none none]
  else if containsSub line "扫码登录" then [.update "qrcode_login" 25 none none]
  else if containsSub line "手机登录" then [.update "phone_login" 25 none none]
  -- 2. crawl patterns
  else if containsSub line "开始爬取" then [.update "crawling" 40 none none]
  else if matchesPageCount line then []
  else match searchCrawledPair line with
  | some (completed, total) =>
      -- dynamic percent: min(40.0 + (completed / total) * 50.0, 90.0)
      if 0 < total then
        [.update "crawling" (pymin (40 + ((completed : ℚ) / (total : ℚ)) * 50) 90)
          (some total) (some completed)]
      else []
  | none =>
    if matchesCrawlTotal line then []
    -- 3. save patterns
    else if containsSub line "开始保存" then [.update "saving" 90 none none]
    else match searchSaveCount line with
    | some n => [.update "saving" 95 none none, .update "saving" 95 none (some n)]
    | none =>
      if containsSub line "保存完成" then [.update "completed" 100 none none]
      -- 4. error patterns
      else if errorLits.any (fun lit => containsSubCI line lit) then
        [.logError ("MediaCrawler报告错误: " ++ line)]
      -- 5. noteworthy patterns
      else if importantLits.any (fun lit => containsSubCI line lit) then
        [.logInfo ("MediaCrawler: " ++ line)]
      else []

/-- Effect of one parsed action on the progress snapshot (log actions append
events only and leave the snapshot untouched). -/
def applyAction (p : TaskProgress) : PAction → TaskProgress
  | .update stage pc total completed =>
      updateProgress p (some stage) (some pc) (total.map Int.ofNat)
        (completed.map Int.ofNat) none none
  | .logError _ => p
  | .logInfo _ => p

/-- Progress snapshot after feeding one stdout line through the parser. -/
def applyLine (p : TaskProgress) (line : String) : TaskProgress :=
  (parseProgressLine line).foldl applyAction p

/-- Progress snapshot after feeding a sequence of stdout lines. -/
def applyLines (p : TaskProgress) (lines : List String) : TaskProgress :=
  lines.foldl applyLine p

/-! ## LoginManager (src/app/core/login_manager.py)

Wall-clock instants are `ℚ` seconds (`time.time()` returns a float).  The
transient browser handles (`page`, `browser`, `browser_context`) and the
callback slots carry no claim-relevant state and are left out. -/

/-- LoginType enum. -/
inductive LoginTypeM where
  | cookie | qrcode | phone
deriving DecidableEq, Repr

/-- Python `LoginType(value)`: parses the request string, raising otherwise. -/
def loginTypeOfString (s : String) : Option LoginTypeM :=
  if s = "cookie" then some .cookie
  else if s = "qrcode" then some .qrcode
  else if s = "phone" then some .phone
  else none

/-- LoginStatus enum. -/
inductive LoginStatusM where
  | pending | qrcode_generated | qrcode_scanned | phone_input_required
  | verification_code_required | success | failed | timeout
deriving DecidableEq, Repr

/-- The `.value` string of a LoginStatus member. -/
def statusValue : LoginStatusM → String
  | .pending => "pending"
  | .qrcode_generated => "qrcode_generated"
  | .qrcode_scanned => "qrcode_scanned"
  | .phone_input_required => "phone_input_required"
  | .verification_code_required => "verification_code_required"
  | .success => "success"
  | .failed => "failed"
  | .timeout => "timeout"

/-- One LoginSession record.  `data` is the session-local string map; the
values stored by the claims under study are strings. -/
structure LoginSessionM where
  task_id : String
  platform : String
  login_type : LoginTypeM
  status : LoginStatusM
  start_time : ℚ
  timeout : ℚ
  data : List (String × String)
  cookies_data : Option String
deriving DecidableEq, Repr

/-- LoginSession.is_expired: strict comparison against the session timeout. -/
def isExpired (s : LoginSessionM) (now : ℚ) : Bool := now - s.start_time > s.timeout

/-- LoginSession.update_status: overwrite the status and merge the optional
data dict (`self.data.update(data or {})`); the message only feeds the
status-change callback, which logs. -/
def updateStatus (s : LoginSessionM) (st : LoginStatusM)
    (data : Option (List (String × String))) : LoginSessionM :=
  { s with status := st, data := dictUpdateAll s.data (data.getD []) }

/-- The manager state: the process-wide `task_id -> LoginSession` table. -/
structure LoginManagerState where
  sessions : List (String × LoginSessionM)
deriving DecidableEq, Repr

/-- LoginManager.create_login_session: builds a fresh pending session (the
constructor sets `timeout = 300`, then the manager overwrites it with the
requested value) and stores it under `task_id`, replacing any previous entry. -/
def createLoginSession (mst : LoginManagerState) (task_id platform : String)
    (login_type : LoginTypeM) (timeout : ℚ) (now : ℚ) :
    LoginSessionM × LoginManagerState :=
  let s : LoginSessionM :=
    { task_id := task_id
      platform := platform
      login_type := login_type
      status := .pending
      start_time := now
      timeout := timeout
      data := []
      cookies_data := none }
  (s, { sessions := setKey mst.sessions task_id s })

/-- LoginResponse as far as the claims read it (`qrcode_image` and
`input_required` stay `None` on the paths under study). -/
structure LoginResponseM where
  task_id : String
  status : LoginStatusM
  message : String
  data : Option (List (String × String))
deriving DecidableEq, Repr

/-- LoginManager.get_login_status: a missing session reports `failed`; an
expired session is pushed to `timeout` via `update_status` (mutating the
stored record) before the report is built from the session fields. -/
def getLoginStatus (mst : LoginManagerState) (task_id : String) (now : ℚ) :
    LoginResponseM × LoginManagerState :=
  match lookup? mst.sessions task_id with
  | none =>
    ({ task_id := task_id, status := .failed, message := "登录会话不存在", data := none }, mst)
  | some s =>
    if isExpired s now then
      let s1 := updateStatus s .timeout none
      ({ task_id := task_id, status := s1.status,
         message := "当前状态: " ++ statusValue s1.status, data := some s1.data },
       { sessions := setKey mst.sessions task_id s1 })
    else
      ({ task_id := task_id, status := s.status,
         message := "当前状态: " ++ statusValue s.status, data := some s.data }, mst)

/-! ### The create-session endpoint (src/app/api/login.py, lines 70-123)

This is the public `create_session` operation of the spec: it validates the
login type, rejects a duplicate task id without touching the stored session,
and otherwise creates the session (seeding `data["cookies"]` for truthy
cookie-login payloads). -/

/-- CreateLoginSessionRequest model (timeout defaults to 300). -/
structure CreateSessionRequest where
  task_id : String
  platform : String
  login_type : String
  timeout : ℚ := 300
  cookies : Option String := none
deriving DecidableEq, Repr

/-- CreateLoginSessionResponse model. -/
structure CreateSessionResponse where
  success : Bool
  message : String
  task_id : String
  session_created : Bool
deriving DecidableEq, Repr

/-- Outcome of an endpoint call: a response body or an HTTPException. -/
inductive EndpointResult (α : Type) where
  | ok (body : α)
  | httpError (code : ℕ) (detail : String)
deriving DecidableEq, Repr

/-- The `/api/v1/login/create-session` endpoint. -/
def createSessionEndpoint (mst : LoginManagerState) (req : CreateSessionRequest)
    (now : ℚ) : EndpointResult CreateSessionResponse × LoginManagerState :=
  match loginTypeOfString req.login_type with
  | none =>
    (.httpError 400 ("不支持的登录类型: " ++ req.login_type ++ "，支持的类型: qrcode, phone, cookie"),
     mst)
  | some lt =>
    match lookup? mst.sessions req.task_id with
    | some _ =>
      (.ok { success := false
             message := "任务 " ++ req.task_id ++ " 已存在登录会话"
             task_id := req.task_id
             session_created := false }, mst)
    | none =>
      let (s, mst1) := createLoginSession mst req.task_id req.platform lt req.timeout now
      -- `if login_type == LoginType.COOKIE and request.cookies:` (truthiness)
      let mst2 :=
        match lt, req.cookies with
        | .cookie, some c =>
          if c ≠ "" then
            { sessions := setKey mst1.sessions req.task_id
                { s with data := setKey s.data "cookies" c } }
          else mst1
        | _, _ => mst1
      (.ok { success := true
             message := "登录会话创建成功"
             task_id := req.task_id
             session_created := true }, mst2)

/-! ### The qrcode credential-change monitor
(LoginManager._monitor_client_login, src/app/core/login_manager.py,
lines 291-347)

The monitor hard-codes its own deadline (`timeout = 300` at line 294) and
polls the browser cookies every 2 seconds.  Time is modelled as the elapsed
whole seconds accumulated by the 2-second sleeps; the poll at index `i` sees
the browser cookie list `polls i`, and `alive i` tells whether the session is
still present in the manager table at that poll. -/

/-- Value of the `web_session` cookie in a cookie list (the source loop takes
the first entry with that name). -/
def webSessionOf (cookies : List (String × String)) : Option String :=
  (cookies.find? (fun kv => kv.1 = "web_session")).map Prod.snd

/-- The hard-coded monitor deadline (`timeout = 300  # 5分钟超时`). -/
def monitorDeadline : ℕ := 300

/-- Truthiness-and-change test
`if current_web_session and current_web_session != initial_web_session`. -/
def webSessionChanged (cur initial : Option String) : Bool :=
  (match cur with
   | none => false
   | some v => v ≠ "") && cur != initial

/-- The monitor while-loop.  `fuel` only bounds the recursion; the loop
itself exits once the elapsed time reaches the hard deadline, which happens
after at most 150 iterations, so any `fuel > 150` is exact.  Returns the
session status and the elapsed seconds at loop exit. -/
def monitorLoop (alive : ℕ → Bool) (polls : ℕ → List (String × String))
    (initialWS : Option String) :
    ℕ → ℕ → ℕ → LoginStatusM → LoginStatusM × ℕ
  | 0, _, e, st => (st, e)
  | fuel + 1, i, e, st =>
    if e < monitorDeadline then
      if alive i then
        if st = .success ∨ st = .failed ∨ st = .timeout then (st, e)
        else if webSessionChanged (webSessionOf (polls i)) initialWS then
          -- cookies are extracted and saved, then the status becomes success
          (.success, e)
        else
          monitorLoop alive polls initialWS fuel (i + 1) (e + 2) st
      else (st, e)
    else (st, e)

/-- LoginManager._monitor_client_login: read the initial `web_session`
value, run the loop, and if the loop ends with the session neither
successful nor failed, push it to `timeout`. -/
def monitorClientLogin (alive : ℕ → Bool) (polls : ℕ → List (String × String))
    (initialCookies : List (String × String)) (st : LoginStatusM) :
    LoginStatusM × ℕ :=
  let r := monitorLoop alive polls (webSessionOf initialCookies) 151 0 0 st
  if r.1 = .success ∨ r.1 = .failed then r else (.timeout, r.2)

/-! ## MediaCrawlerAdapter (src/app/crawler/adapter.py)

`running_tasks` maps task ids to `asyncio.Task` handles; a handle is modelled
by whether the task has finished and, if so, the exception it ended with
(`none` = normal return).  `task_results` stores either `CrawlerResult`
dataclasses or the plain dicts built inside `_run_mediacrawler_process`;
`StoredResult` is the union of their fields, with `none` marking keys a dict
variant does not carry. -/

/-- An `asyncio.Task` handle as the adapter observes it. -/
structure TaskHandle where
  done : Bool
  exc : Option String
deriving DecidableEq, Repr

/-- An entry of `task_results`. -/
structure StoredResult where
  success : Bool
  message : Option String := none
  error : Option String := none
  data_count : ℕ := 0
  error_count : ℕ := 0
deriving DecidableEq, Repr

/-- The adapter state: the two process-wide tables. -/
structure AdapterState where
  running_tasks : List (String × TaskHandle)
  task_results : List (String × StoredResult)
deriving DecidableEq, Repr

/-- MediaCrawlerAdapter.start_crawler_task: register the freshly scheduled
execution unit under the task id. -/
def startCrawlerTask (st : AdapterState) (task_id : String) : AdapterState :=
  { st with running_tasks := setKey st.running_tasks task_id { done := false, exc := none } }

/-- The dict returned by `_execute_crawler_process`.  No branch ever sets a
`message` key. -/
structure ExecDict where
  success : Bool
  data_count : Option ℕ := none
  message : Option String := none
  error : Option String := none
  stdout : Option String := none
  stderr : Option String := none
deriving DecidableEq, Repr

/-- MediaCrawlerAdapter._execute_crawler_process (lines 334-423) as a
function of the process exit code and captured output lines.  On exit code 0
the final count is parsed (line 382), but line 385 then reads the name
`task`, which is unbound in this method (its parameters are `cmd` and
`task_logger`), so a `NameError` reaches the handler at line 413 and the
success dict of line 393 is never built. -/
def executeCrawlerProcess (returncode : ℕ) (stdout_lines stderr_lines : List String) :
    ExecDict :=
  let stdout_text := String.intercalate "\n" stdout_lines
  let stderr_text := String.intercalate "\n" stderr_lines
  if returncode = 0 then
    let _data_count := parseDataCountFromOutput stdout_text
    { success := false
      error := some "执行异常: name \x27task\x27 is not defined" }
  else
    { success := false
      error := some ("进程退出码: " ++ toString returncode ++ ", 错误: " ++ stderr_text)
      stdout := some stdout_text
      stderr := some stderr_text }

/-- Message of the `TypeError` raised by `running_tasks[task_id][...] = ...`
when the stored value is an `asyncio.Task` (adapter.py lines 157 and 181). -/
def typeErrorTaskMsg : String := "\x27Task\x27 object does not support item assignment"

/-- Message of the `KeyError` raised by `result[\x27message\x27]` at
adapter.py line 149 (`str` of a KeyError is the quoted key). -/
def keyErrorMessageMsg : String := "\x27message\x27"

/-- The try-branch of `_run_mediacrawler_process` after the subprocess
finished (lines 147-161): reading `result[\x27message\x27]` for the log line
raises KeyError before the result is stored; were a `message` key present,
the result would be stored (line 153) and the status bookkeeping at line 157
would raise TypeError on the `asyncio.Task` entry.  Returns the state
together with the pending exception, if any. -/
def runTryBranch (st : AdapterState) (task_id : String) (exec : ExecDict) :
    AdapterState × Option String :=
  match exec.message with
  | none => (st, some keyErrorMessageMsg)
  | some _ =>
    let st1 := { st with
      task_results := setKey st.task_results task_id
        { success := exec.success
          message := exec.message
          error := exec.error
          data_count := exec.data_count.getD 0 } }
    if (lookup? st1.running_tasks task_id).isSome then (st1, some typeErrorTaskMsg)
    else (st1, none)

/-- The except-branch of `_run_mediacrawler_process` (lines 163-185): store a
failure result built from the caught exception, then the same status
bookkeeping (line 181) raises TypeError again, which propagates out of the
coroutine. -/
def runExceptBranch (st : AdapterState) (task_id : String) (e : String) :
    AdapterState × Option String :=
  let error_msg := "执行MediaCrawler时发生错误: " ++ e
  let st1 := { st with
    task_results := setKey st.task_results task_id
      { success := false, message := some error_msg, data_count := 0, error_count := 1 } }
  if (lookup? st1.running_tasks task_id).isSome then (st1, some typeErrorTaskMsg)
  else (st1, none)

/-- `_run_mediacrawler_process` from the point the subprocess result is
available: try-branch, with the except-branch handling its exception. -/
def runMediacrawlerProcess (st : AdapterState) (task_id : String) (exec : ExecDict) :
    AdapterState × Option String :=
  match runTryBranch st task_id exec with
  | (st1, none) => (st1, none)
  | (st1, some e) => runExceptBranch st1 task_id e

/-- Mark the `asyncio.Task` handle done, recording the exception the
coroutine ended with (done by the event loop, not by adapter code). -/
def markHandleDone (l : List (String × TaskHandle)) (task_id : String)
    (exc : Option String) : List (String × TaskHandle) :=
  l.map (fun kv => if kv.1 = task_id then (kv.1, { done := true, exc := exc }) else kv)

/-- One complete job execution after `start_crawler_task`: run the coroutine
body and let the event loop retire its handle. -/
def finishJob (st : AdapterState) (task_id : String) (exec : ExecDict) : AdapterState :=
  let r := runMediacrawlerProcess st task_id exec
  { r.1 with running_tasks := markHandleDone r.1.running_tasks task_id r.2 }

/-- The result stored by `stop_task`. -/
def manuallyStoppedResult : StoredResult :=
  { success := false, message := some "任务已被手动停止" }

/-- MediaCrawlerAdapter.stop_task (lines 605-626).  Unknown ids return
`some false`.  For a stored handle the method cancels and awaits it; a
finished handle holding an exception re-raises it at the `await` (only
`CancelledError` is swallowed), so the method exits exceptionally (`none`)
without storing anything; otherwise the manually-stopped result is stored,
the handle is removed and `some true` is returned. -/
def stopTask (st : AdapterState) (task_id : String) : Option Bool × AdapterState :=
  match lookup? st.running_tasks task_id with
  | none => (some false, st)
  | some h =>
    if h.done && h.exc.isSome then (none, st)
    else
      (some true,
       { running_tasks := eraseKey st.running_tasks task_id
         task_results := setKey st.task_results task_id manuallyStoppedResult })

/-! ## Task-submission endpoint (src/app/main.py, lines 164-239) -/

/-- PlatformType as the endpoint resolves it through PLATFORM_MAPPING. -/
inductive PlatformTypeM where
  | xhs | douyin | bilibili | kuaishou | weibo | tieba | zhihu
deriving DecidableEq, Repr

/-- PLATFORM_MAPPING lookup. -/
def platformMapping (s : String) : Option PlatformTypeM :=
  if s = "xhs" then some .xhs
  else if s = "douyin" then some .douyin
  else if s = "bilibili" then some .bilibili
  else if s = "kuaishou" then some .kuaishou
  else if s = "weibo" then some .weibo
  else if s = "tieba" then some .tieba
  else if s = "zhihu" then some .zhihu
  else none

/-- CrawlerTaskType enum. -/
inductive CrawlerTaskTypeM where
  | search | detail | creator
deriving DecidableEq, Repr

/-- Python `CrawlerTaskType(value)`. -/
def taskTypeOfString (s : String) : Option CrawlerTaskTypeM :=
  if s = "search" then some .search
  else if s = "detail" then some .detail
  else if s = "creator" then some .creator
  else none

/-- CrawlerTaskRequest as far as validation reads it. -/
structure CrawlerTaskRequestM where
  platform : String
  task_type : String
  keywords : Option (List String) := none
  content_ids : Option (List String) := none
  creator_ids : Option (List String) := none
  max_count : ℕ := 100
  max_comments : ℕ := 50
  clear_cookies : Bool := false
deriving DecidableEq, Repr

/-- Python truthiness of an optional list (`not request.keywords`). -/
def listTruthy (l : Option (List String)) : Bool :=
  match l with
  | none => false
  | some xs => !xs.isEmpty

/-- The CrawlerTask dataclass fields populated by the endpoint. -/
structure CrawlerTaskM where
  task_id : String
  platform : PlatformTypeM
  task_type : CrawlerTaskTypeM
  keywords : Option (List String)
  content_ids : Option (List String)
  creator_ids : Option (List String)
  max_count : ℕ
  max_comments : ℕ
  clear_cookies : Bool
deriving DecidableEq, Repr

/-- Outcome of `create_crawler_task`: the created job (with the returned
task id) or an HTTPException. -/
inductive CreateTaskOutcome where
  | created (task_id : String) (task : CrawlerTaskM)
  | httpError (code : ℕ) (detail : String)
deriving DecidableEq, Repr

/-- The `/api/v1/tasks` endpoint validation and task construction.  The
generated uuid is supplied as `task_id`; the cookie-clearing side effect acts
on the separate cookie cache and does not influence validation. -/
def createCrawlerTask (req : CrawlerTaskRequestM) (task_id : String) : CreateTaskOutcome :=
  match platformMapping req.platform with
  | none => .httpError 400 ("不支持的平台: " ++ req.platform)
  | some p =>
    match taskTypeOfString req.task_type with
    | none => .httpError 400 ("不支持的任务类型: " ++ req.task_type)
    | some tt =>
      if req.task_type = "search" ∧ ¬listTruthy req.keywords then
        .httpError 400 "搜索模式需要提供keywords参数"
      else if req.task_type = "detail" ∧ ¬listTruthy req.content_ids then
        .httpError 400 "详情模式需要提供content_ids参数"
      else if req.task_type = "creator" ∧ ¬listTruthy req.creator_ids then
        .httpError 400 "创作者模式需要提供creator_ids参数"
      else
        .created task_id
          { task_id := task_id
            platform := p
            task_type := tt
            keywords := req.keywords
            content_ids := req.content_ids
            creator_ids := req.creator_ids
            max_count := req.max_count
            max_comments := req.max_comments
            clear_cookies := req.clear_cookies }

/-- Does the populated target set mismatch the declared job type (the
condition under which the endpoint rejects)? -/
def targetSetMismatch (req : CrawlerTaskRequestM) : Bool :=
  (req.task_type = "search" && !listTruthy req.keywords)
  || (req.task_type = "detail" && !listTruthy req.content_ids)
  || (req.task_type = "creator" && !listTruthy req.creator_ids)

/-- The rejection message for a mismatched submission of each job type. -/
def mismatchDetail : CrawlerTaskTypeM → String
  | .search => "搜索模式需要提供keywords参数"
  | .detail => "详情模式需要提供content_ids参数"
  | .creator => "创作者模式需要提供creator_ids参数"

/-! ## Helper lemmas -/

theorem keysOf_nil {α : Type} : keysOf ([] : List (String × α)) = [] := rfl

theorem keysOf_cons {α : Type} (k1 : String) (v1 : α) (tl : List (String × α)) :
    keysOf ((k1, v1) :: tl) = k1 :: keysOf tl := rfl

theorem mem_keysOf_setKey {α : Type} (l : List (String × α)) (k x : String) (v : α) :
    x ∈ keysOf (setKey l k v) ↔ x ∈ keysOf l ∨ x = k := by
  induction l with
  | nil =>
    simp only [setKey, keysOf_nil, keysOf_cons, List.mem_cons, List.not_mem_nil]
    tauto
  | cons hd tl ih =>
    obtain ⟨k1, v1⟩ := hd
    by_cases hk : k1 = k
    · subst hk
      simp [setKey, keysOf_cons]
      tauto
    · simp [setKey, hk, keysOf_cons, ih]
      tauto

theorem nodup_keysOf_setKey {α : Type} (l : List (String × α)) (k : String) (v : α)
    (h : (keysOf l).Nodup) : (keysOf (setKey l k v)).Nodup := by
  induction l with
  | nil => simp [setKey, keysOf_cons, keysOf_nil]
  | cons hd tl ih =>
    obtain ⟨k1, v1⟩ := hd
    rw [keysOf_cons, List.nodup_cons] at h
    by_cases hk : k1 = k
    · subst hk
      simpa [setKey, keysOf_cons] using h
    · simp only [setKey, if_neg hk, keysOf_cons, List.nodup_cons]
      refine ⟨?_, ih h.2⟩
      intro hx
      rcases (mem_keysOf_setKey tl k k1 v).mp hx with h1 | h1
      · exact h.1 h1
      · exact hk h1

/-! ## Claim C6 -/

/-- Claim C6, counterexample: the claim promises the saved blob back whenever
the age is within the bound, but a fresh entry whose saved blob is the empty
string yields nothing (the `if cookies:` truthiness test rejects it). -/
theorem c6_counterexample :
    (saveCookies "xhs" "" none 0).cookies = some "" ∧
    loadCookies (some (saveCookies "xhs" "" none 0)) 0 7 = none := by
  refine ⟨rfl, ?_⟩
  simp only [loadCookies, saveCookies, Option.getD_some]
  rw [if_neg (by norm_num)]
  simp

/-- Claim C6 (amended): `load` returns nothing when the entry is absent or
strictly older than `max_age_days`; when the age is at most `max_age_days`
(the boundary is inclusive) and the saved blob is nonempty, the blob is
returned. -/
theorem c6_load_age_boundary (p b : String) (tid : Option String)
    (tsave now max_age : ℤ) :
    loadCookies none now max_age = none ∧
    (((now - tsave : ℤ) : ℚ) / (24 * 3600) > (max_age : ℚ) →
      loadCookies (some (saveCookies p b tid tsave)) now max_age = none) ∧
    (((now - tsave : ℤ) : ℚ) / (24 * 3600) ≤ (max_age : ℚ) → b ≠ "" →
      loadCookies (some (saveCookies p b tid tsave)) now max_age = some b) := by
  refine ⟨rfl, ?_, ?_⟩
  · intro h
    simp only [loadCookies, saveCookies, Option.getD_some]
    rw [if_pos h]
  · intro h hb
    simp only [loadCookies, saveCookies, Option.getD_some]
    rw [if_neg (not_lt.mpr h)]
    simp [hb]

/-- Claim C6, witness: a blob saved at epoch 0 and read back exactly
`7 * 24 * 3600` seconds later (age equal to the bound) is still returned. -/
theorem c6_witness :
    loadCookies (some (saveCookies "xhs" "a=1; b=2" none 0)) 604800 7 = some "a=1; b=2" :=
  (c6_load_age_boundary "xhs" "a=1; b=2" none 0 604800 7).2.2 (by norm_num) (by decide)

/-! ## Claim C10 -/

/-- Claim C10: a cache entry within the age bound whose cookies value is
empty or missing loads as nothing, exactly like an absent entry. -/
theorem c10_empty_blob_absent (d : CookiesFileD) (now max_age : ℤ)
    (hage : ((now - d.saved_time.getD 0 : ℤ) : ℚ) / (24 * 3600) ≤ (max_age : ℚ))
    (hempty : d.cookies = none ∨ d.cookies = some "") :
    loadCookies (some d) now max_age = none ∧
    loadCookies (some d) now max_age = loadCookies none now max_age := by
  have h1 : loadCookies (some d) now max_age = none := by
    simp only [loadCookies]
    rw [if_neg (not_lt.mpr hage)]
    rcases hempty with h | h <;> simp [h]
  exact ⟨h1, by rw [h1]; rfl⟩

/-- Claim C10, witness at a fresh entry with an empty blob. -/
theorem c10_witness :
    loadCookies (some ⟨"xhs", some "", none, some 0⟩) 0 7 = none :=
  (c10_empty_blob_absent ⟨"xhs", some "", none, some 0⟩ 0 7 (by norm_num) (Or.inr rfl)).1

/-! ## Claim C8 -/

/-- Claim C8: with a supported platform and job type, a submission whose
target set does not match its job type is rejected with the 400 validation
error and no job value is produced; a matching submission yields the created
job carrying the returned task id. -/
theorem c8_validation (req : CrawlerTaskRequestM) (task_id : String)
    (p : PlatformTypeM) (tt : CrawlerTaskTypeM)
    (hp : platformMapping req.platform = some p)
    (ht : taskTypeOfString req.task_type = some tt) :
    (targetSetMismatch req = true →
      createCrawlerTask req task_id = .httpError 400 (mismatchDetail tt)) ∧
    (targetSetMismatch req = false →
      createCrawlerTask req task_id = .created task_id
        { task_id := task_id, platform := p, task_type := tt,
          keywords := req.keywords, content_ids := req.content_ids,
          creator_ids := req.creator_ids, max_count := req.max_count,
          max_comments := req.max_comments, clear_cookies := req.clear_cookies }) := by
  have ht0 := ht
  unfold taskTypeOfString at ht0
  split_ifs at ht0 with h1 h2 h3
  · -- search
    injection ht0 with ht0
    subst ht0
    constructor
    · intro hmis
      have hk : listTruthy req.keywords = false := by
        revert hmis
        simp [targetSetMismatch, h1]
      simp [createCrawlerTask, taskTypeOfString, hp, h1, hk, mismatchDetail]
    · intro hmis
      have hk : listTruthy req.keywords = true := by
        revert hmis
        simp [targetSetMismatch, h1]
      simp [createCrawlerTask, taskTypeOfString, hp, h1, hk]
  · -- detail
    injection ht0 with ht0
    subst ht0
    constructor
    · intro hmis
      have hk : listTruthy req.content_ids = false := by
        revert hmis
        simp [targetSetMismatch, h2, h1]
      simp [createCrawlerTask, taskTypeOfString, hp, h2, h1, hk, mismatchDetail]
    · intro hmis
      have hk : listTruthy req.content_ids = true := by
        revert hmis
        simp [targetSetMismatch, h2, h1]
      simp [createCrawlerTask, taskTypeOfString, hp, h2, h1, hk]
  · -- creator
    injection ht0 with ht0
    subst ht0
    constructor
    · intro hmis
      have hk : listTruthy req.creator_ids = false := by
        revert hmis
        simp [targetSetMismatch, h3, h2, h1]
      simp [createCrawlerTask, taskTypeOfString, hp, h3, h2, h1, hk, mismatchDetail]
    · intro hmis
      have hk : listTruthy req.creator_ids = true := by
        revert hmis
        simp [targetSetMismatch, h3, h2, h1]
      simp [createCrawlerTask, taskTypeOfString, hp, h3, h2, h1, hk]

/-- Claim C8, witness: a search submission with keywords is created as is. -/
theorem c8_witness :
    createCrawlerTask
      { platform := "xhs", task_type := "search", keywords := some ["a", "b"] } "t1" =
    .created "t1"
      { task_id := "t1", platform := .xhs, task_type := .search,
        keywords := some ["a", "b"], content_ids := none, creator_ids := none,
        max_count := 100, max_comments := 50, clear_cookies := false } :=
  (c8_validation
    { platform := "xhs", task_type := "search", keywords := some ["a", "b"] }
    "t1" .xhs .search (by decide) (by decide)).2 (by decide)

/-! ## Claim C2 -/

/-- Claim C2: a create-session call for a job id that already has a stored
session returns the rejection response and leaves the manager state (hence
every field of the existing session) untouched; and any create-session call
preserves distinctness of stored job ids, so at most one session exists per
job id. -/
theorem c2_duplicate_create_rejected :
    (∀ (mst : LoginManagerState) (req : CreateSessionRequest) (now : ℚ)
        (s : LoginSessionM),
      (loginTypeOfString req.login_type).isSome = true →
      lookup? mst.sessions req.task_id = some s →
      createSessionEndpoint mst req now =
        (.ok { success := false
               message := "任务 " ++ req.task_id ++ " 已存在登录会话"
               task_id := req.task_id
               session_created := false }, mst)) ∧
    (∀ (mst : LoginManagerState) (req : CreateSessionRequest) (now : ℚ),
      (keysOf mst.sessions).Nodup →
      (keysOf (createSessionEndpoint mst req now).2.sessions).Nodup) := by
  constructor
  · intro mst req now s hlt hs
    obtain ⟨lt, hlt1⟩ := Option.isSome_iff_exists.mp hlt
    unfold createSessionEndpoint
    rw [hlt1, hs]
  · intro mst req now hnd
    unfold createSessionEndpoint
    cases hO : loginTypeOfString req.login_type with
    | none => exact hnd
    | some lt =>
      cases hL : lookup? mst.sessions req.task_id with
      | some s => exact hnd
      | none =>
        simp only [createLoginSession]
        cases lt with
        | cookie =>
          cases hC : req.cookies with
          | none => exact nodup_keysOf_setKey _ _ _ hnd
          | some c =>
            dsimp only
            by_cases hc : c ≠ ""
            · rw [if_pos hc]
              exact nodup_keysOf_setKey _ _ _ (nodup_keysOf_setKey _ _ _ hnd)
            · rw [if_neg hc]
              exact nodup_keysOf_setKey _ _ _ hnd
        | qrcode => exact nodup_keysOf_setKey _ _ _ hnd
        | phone => exact nodup_keysOf_setKey _ _ _ hnd

/-- Claim C2, witness: with one stored session for `job1`, a second qrcode
create-session request for `job1` is rejected and the state is unchanged. -/
theorem c2_witness :
    createSessionEndpoint
      ⟨[("job1",
         { task_id := "job1", platform := "xhs", login_type := .qrcode,
           status := .pending, start_time := 0, timeout := 300,
           data := [], cookies_data := none })]⟩
      { task_id := "job1", platform := "xhs", login_type := "qrcode" } 5 =
    (.ok { success := false, message := "任务 job1 已存在登录会话",
           task_id := "job1", session_created := false },
     ⟨[("job1",
        { task_id := "job1", platform := "xhs", login_type := .qrcode,
          status := .pending, start_time := 0, timeout := 300,
          data := [], cookies_data := none })]⟩) :=
  c2_duplicate_create_rejected.1
    ⟨[("job1",
       { task_id := "job1", platform := "xhs", login_type := .qrcode,
         status := .pending, start_time := 0, timeout := 300,
         data := [], cookies_data := none })]⟩
    { task_id := "job1", platform := "xhs", login_type := "qrcode" } 5
    { task_id := "job1", platform := "xhs", login_type := .qrcode,
      status := .pending, start_time := 0, timeout := 300,
      data := [], cookies_data := none }
    (by decide) (by simp [lookup?])

/-! ## Claim C3 -/

/-- Claim C3, counterexample: reading the status of an expired pending
session reports timeout but also overwrites the stored status field, which
the claim asserts is left unchanged. -/
theorem c3_counterexample :
    (getLoginStatus
      ⟨[("job1",
         { task_id := "job1", platform := "xhs", login_type := .qrcode,
           status := .pending, start_time := 0, timeout := 300,
           data := [], cookies_data := none })]⟩ "job1" 301).1.status = .timeout ∧
    (lookup? (getLoginStatus
      ⟨[("job1",
         { task_id := "job1", platform := "xhs", login_type := .qrcode,
           status := .pending, start_time := 0, timeout := 300,
           data := [], cookies_data := none })]⟩ "job1" 301).2.sessions "job1").map
        LoginSessionM.status = some LoginStatusM.timeout := by
  have hexp : isExpired
      { task_id := "job1", platform := "xhs", login_type := .qrcode,
        status := .pending, start_time := 0, timeout := 300,
        data := [], cookies_data := none } (301 : ℚ) = true := by
    simp [isExpired]
    norm_num
  constructor
  · simp [getLoginStatus, lookup?, hexp, updateStatus]
  · simp [getLoginStatus, lookup?, hexp, updateStatus, setKey]

/-- Claim C3 (amended): a status read of an expired session reports
`timeout` and writes `timeout` into the stored status; every other stored
field (platform, login mode, timestamps, data, captured credentials) is left
unchanged, as is the rest of the session table. -/
theorem c3_status_read_sets_timeout (mst : LoginManagerState) (task_id : String)
    (now : ℚ) (s : LoginSessionM)
    (h1 : lookup? mst.sessions task_id = some s)
    (h2 : isExpired s now = true) :
    getLoginStatus mst task_id now =
      ({ task_id := task_id, status := .timeout,
         message := "当前状态: timeout", data := some s.data },
       { sessions := setKey mst.sessions task_id { s with status := .timeout } }) := by
  unfold getLoginStatus
  rw [h1]
  simp [h2, updateStatus, dictUpdateAll, statusValue]

/-- Claim C3, witness: the amended behaviour at a concrete expired pending
session. -/
theorem c3_witness :
    getLoginStatus
      ⟨[("job1",
         { task_id := "job1", platform := "xhs", login_type := .qrcode,
           status := .pending, start_time := 0, timeout := 300,
           data := [], cookies_data := none })]⟩ "job1" 301 =
      ({ task_id := "job1", status := .timeout,
         message := "当前状态: timeout", data := some [] },
       ⟨[("job1",
          { task_id := "job1", platform := "xhs", login_type := .qrcode,
            status := .timeout, start_time := 0, timeout := 300,
            data := [], cookies_data := none })]⟩) := by
  have h := c3_status_read_sets_timeout
    ⟨[("job1",
       { task_id := "job1", platform := "xhs", login_type := .qrcode,
         status := .pending, start_time := 0, timeout := 300,
         data := [], cookies_data := none })]⟩ "job1" 301
    { task_id := "job1", platform := "xhs", login_type := .qrcode,
      status := .pending, start_time := 0, timeout := 300,
      data := [], cookies_data := none }
    (by simp [lookup?]) (by simp [isExpired]; norm_num)
  simpa [setKey] using h

/-! ## Claim C4 -/

/-- When the session stays alive and non-terminal and the marker cookie
never differs from its initial value, the monitor loop runs its sleep
cadence to the hard deadline: from an even elapsed time `e` with enough
fuel it exits with the status unchanged at elapsed time `max e 300`. -/
theorem monitorLoop_no_change (alive : ℕ → Bool) (polls : ℕ → List (String × String))
    (initialWS : Option String) (st : LoginStatusM)
    (hst : ¬(st = .success ∨ st = .failed ∨ st = .timeout))
    (hal : ∀ i, alive i = true)
    (hnc : ∀ i, webSessionChanged (webSessionOf (polls i)) initialWS = false) :
    ∀ fuel i e, e % 2 = 0 → monitorDeadline ≤ e + 2 * fuel →
      monitorLoop alive polls initialWS fuel i e st = (st, max e monitorDeadline) := by
  intro fuel
  induction fuel with
  | zero =>
    intro i e he h
    unfold monitorLoop
    rw [Nat.max_eq_left (by omega)]
  | succ n ih =>
    intro i e he h
    unfold monitorLoop
    by_cases hlt : e < monitorDeadline
    · rw [if_pos hlt, hal i, if_pos rfl, if_neg hst, hnc i]
      simp only [Bool.false_eq_true, if_false]
      rw [ih (i + 1) (e + 2) (by omega) (by omega)]
      have h300 : monitorDeadline = 300 := rfl
      rw [Nat.max_eq_right (by omega), Nat.max_eq_right (by omega)]
    · rw [if_neg hlt, Nat.max_eq_left (by omega)]

/-- Claim C4 (amended): for a live session in any non-terminal status whose
marker cookie never changes, the background monitor transitions it to
`timeout` when its own hard-coded 300-second deadline elapses — independent
of the session's `timeout_seconds` — and never transitions it to `success`. -/
theorem c4_monitor_fixed_deadline (alive : ℕ → Bool)
    (polls : ℕ → List (String × String)) (initialCookies : List (String × String))
    (st : LoginStatusM)
    (hal : ∀ i, alive i = true)
    (hnc : ∀ i, webSessionOf (polls i) = webSessionOf initialCookies)
    (h1 : st ≠ .success) (h2 : st ≠ .failed) (h3 : st ≠ .timeout) :
    monitorClientLogin alive polls initialCookies st = (.timeout, monitorDeadline) := by
  have hcs : ∀ i, webSessionChanged (webSessionOf (polls i))
      (webSessionOf initialCookies) = false := by
    intro i
    rw [hnc i]
    simp [webSessionChanged]
  unfold monitorClientLogin
  rw [monitorLoop_no_change alive polls (webSessionOf initialCookies) st
    (by tauto) hal hcs 151 0 0 rfl (by decide)]
  simp [h1, h2]

set_option maxRecDepth 10000 in
/-- Claim C4, counterexample: a qrcode session created with
`timeout_seconds = 10` whose marker cookie never appears is timed out by the
monitor only at 300 elapsed seconds, far outside one 2-second poll interval
around its own 10-second timeout. -/
theorem c4_counterexample :
    ((createLoginSession ⟨[]⟩ "job1" "xhs" .qrcode 10 0).1.timeout = 10) ∧
    monitorClientLogin (fun _ => true) (fun _ => []) [] .qrcode_generated =
      (.timeout, 300) ∧
    ¬(((monitorClientLogin (fun _ => true) (fun _ => []) [] .qrcode_generated).2 : ℚ) ≤
        (createLoginSession ⟨[]⟩ "job1" "xhs" .qrcode 10 0).1.timeout + 2) := by
  refine ⟨rfl, by decide, ?_⟩
  have hm : monitorClientLogin (fun _ => true) (fun _ => []) [] .qrcode_generated =
      (.timeout, 300) := by decide
  rw [hm]
  simp [createLoginSession]
  norm_num

/-- Claim C4, witness: the amended statement applied to a never-changing
cookie trace starting from the `qrcode_generated` status. -/
theorem c4_witness :
    monitorClientLogin (fun _ => true) (fun _ => []) [] .qrcode_generated =
      (.timeout, monitorDeadline) :=
  c4_monitor_fixed_deadline (fun _ => true) (fun _ => []) [] .qrcode_generated
    (fun _ => rfl) (fun _ => rfl) (by decide) (by decide) (by decide)

/-! ## Claim C5 -/

/-- Claim C5, counterexample: the line `登录成功 已爬取 3/5` matches the
`已爬取 X/Y` phrasing with Y = 5 > 0, yet the parser, which stops at the
first matching pattern, takes the login branch: the snapshot percent becomes
30 (not the computed ratio percent) and the item counters stay untouched. -/
theorem c5_counterexample :
    searchCrawledPair "登录成功 已爬取 3/5" = some (3, 5) ∧
    (applyLine (initProgress "t1" "xhs") "登录成功 已爬取 3/5").progress_percent = 30 ∧
    (applyLine (initProgress "t1" "xhs") "登录成功 已爬取 3/5").items_total = 0 ∧
    (applyLine (initProgress "t1" "xhs") "登录成功 已爬取 3/5").progress_percent ≠
      pymin (40 + ((3 : ℚ) / 5) * 50) 90 := by
  have hp : parseProgressLine "登录成功 已爬取 3/5" =
      [.update "logged_in" 30 none none] := by rfl
  have h30 : (applyLine (initProgress "t1" "xhs") "登录成功 已爬取 3/5").progress_percent
      = 30 := by
    simp [applyLine, hp, applyAction, updateProgress]
  refine ⟨by decide, h30, ?_, ?_⟩
  · simp [applyLine, hp, applyAction, updateProgress, initProgress]
  · rw [h30]
    norm_num [pymin]

/-- Claim C5 (amended): for a stdout line on which no earlier pattern fires
(no login phrase, no `开始爬取`, no `正在爬取第X页`) and whose leftmost
`已爬取 X/Y` match has Y > 0, the parser issues exactly one update, setting
the stage to crawling, the percent to `min(40 + (X/Y)*50, 90)`, items_total
to Y and items_completed to X. -/
theorem c5_ratio_progress (line : String) (x y : ℕ) (p : TaskProgress)
    (h1 : containsSub line "开始登录" = false)
    (h2 : containsSub line "登录成功" = false)
    (h3 : containsSub line "扫码登录" = false)
    (h4 : containsSub line "手机登录" = false)
    (h5 : containsSub line "开始爬取" = false)
    (h6 : matchesPageCount line = false)
    (h7 : searchCrawledPair line = some (x, y))
    (hy : 0 < y) :
    parseProgressLine line =
      [.update "crawling" (pymin (40 + ((x : ℚ) / (y : ℚ)) * 50) 90) (some y) (some x)] ∧
    (applyLine p line).progress_percent = pymin (40 + ((x : ℚ) / (y : ℚ)) * 50) 90 ∧
    (applyLine p line).items_total = (y : ℤ) ∧
    (applyLine p line).items_completed = (x : ℤ) := by
  have hp : parseProgressLine line =
      [.update "crawling" (pymin (40 + ((x : ℚ) / (y : ℚ)) * 50) 90) (some y) (some x)] := by
    unfold parseProgressLine
    simp [h1, h2, h3, h4, h5, h6, h7, hy]
  refine ⟨hp, ?_, ?_, ?_⟩ <;> simp [applyLine, hp, applyAction, updateProgress]

/-- Claim C5, witness: the clean line `已爬取 3/5` yields percent
`min(40 + (3/5)*50, 90) = 70`, items_total 5 and items_completed 3. -/
theorem c5_witness :
    (applyLine (initProgress "t1" "xhs") "已爬取 3/5").progress_percent =
      pymin (40 + ((3 : ℚ) / 5) * 50) 90 ∧
    (applyLine (initProgress "t1" "xhs") "已爬取 3/5").items_total = 5 ∧
    (applyLine (initProgress "t1" "xhs") "已爬取 3/5").items_completed = 3 := by
  simpa using
    (c5_ratio_progress "已爬取 3/5" 3 5 (initProgress "t1" "xhs")
      (by decide) (by decide) (by decide) (by decide) (by decide) (by decide)
      (by rfl) (by decide)).2

/-! ## Claim C7 -/

theorem pymin_nonneg_le {a b : ℚ} (ha : 0 ≤ a) (hb : 0 ≤ b) :
    0 ≤ pymin a b ∧ pymin a b ≤ b := by
  unfold pymin
  split <;> constructor <;> linarith

/-- Every update action the phrase-matcher can emit carries a percent inside
[0, 100]: the fixed values are 20, 25, 30, 40, 90, 95 and 100, and the
computed ratio percent is `min(40 + (X/Y)*50, 90)` with X, Y ≥ 0. -/
theorem parseProgressLine_percent_bound (line : String) (stg : String) (pc : ℚ)
    (t c : Option ℕ) (h : PAction.update stg pc t c ∈ parseProgressLine line) :
    0 ≤ pc ∧ pc ≤ 100 := by
  unfold parseProgressLine at h
  by_cases b1 : containsSub line "开始登录" = true
  · rw [if_pos b1, List.mem_singleton] at h
    injection h with e1 e2 e3 e4
    subst e2
    exact ⟨by norm_num, by norm_num⟩
  rw [if_neg b1] at h
  by_cases b2 : containsSub line "登录成功" = true
  · rw [if_pos b2, List.mem_singleton] at h
    injection h with e1 e2 e3 e4
    subst e2
    exact ⟨by norm_num, by norm_num⟩
  rw [if_neg b2] at h
  by_cases b3 : containsSub line "扫码登录" = true
  · rw [if_pos b3, List.mem_singleton] at h
    injection h with e1 e2 e3 e4
    subst e2
    exact ⟨by norm_num, by norm_num⟩
  rw [if_neg b3] at h
  by_cases b4 : containsSub line "手机登录" = true
  · rw [if_pos b4, List.mem_singleton] at h
    injection h with e1 e2 e3 e4
    subst e2
    exact ⟨by norm_num, by norm_num⟩
  rw [if_neg b4] at h
  by_cases b5 : containsSub line "开始爬取" = true
  · rw [if_pos b5, List.mem_singleton] at h
    injection h with e1 e2 e3 e4
    subst e2
    exact ⟨by norm_num, by norm_num⟩
  rw [if_neg b5] at h
  by_cases b6 : matchesPageCount line = true
  · rw [if_pos b6] at h
    exact absurd h (List.not_mem_nil _)
  rw [if_neg b6] at h
  cases hsc : searchCrawledPair line with
  | some xy =>
    obtain ⟨xc, yt⟩ := xy
    rw [hsc] at h
    dsimp only at h
    by_cases hy : 0 < yt
    · rw [if_pos hy, List.mem_singleton] at h
      injection h with e1 e2 e3 e4
      subst e2
      exact ⟨(pymin_nonneg_le (by positivity) (by norm_num)).1,
        le_trans (pymin_nonneg_le (by positivity) (by norm_num)).2 (by norm_num)⟩
    · rw [if_neg hy] at h
      exact absurd h (List.not_mem_nil _)
  | none =>
    rw [hsc] at h
    dsimp only at h
    by_cases b7 : matchesCrawlTotal line = true
    · rw [if_pos b7] at h
      exact absurd h (List.not_mem_nil _)
    rw [if_neg b7] at h
    by_cases b8 : containsSub line "开始保存" = true
    · rw [if_pos b8, List.mem_singleton] at h
      injection h with e1 e2 e3 e4
      subst e2
      exact ⟨by norm_num, by norm_num⟩
    rw [if_neg b8] at h
    cases hss : searchSaveCount line with
    | some n =>
      rw [hss] at h
      dsimp only at h
      rw [List.mem_cons, List.mem_singleton] at h
      rcases h with h | h <;>
        (injection h with e1 e2 e3 e4; subst e2; exact ⟨by norm_num, by norm_num⟩)
    | none =>
      rw [hss] at h
      dsimp only at h
      by_cases b9 : containsSub line "保存完成" = true
      · rw [if_pos b9, List.mem_singleton] at h
        injection h with e1 e2 e3 e4
        subst e2
        exact ⟨by norm_num, by norm_num⟩
      rw [if_neg b9] at h
      by_cases b10 : (errorLits.any fun lit => containsSubCI line lit) = true
      · rw [if_pos b10, List.mem_singleton] at h
        exact PAction.noConfusion h
      rw [if_neg b10] at h
      by_cases b11 : (importantLits.any fun lit => containsSubCI line lit) = true
      · rw [if_pos b11, List.mem_singleton] at h
        exact PAction.noConfusion h
      rw [if_neg b11] at h
      exact absurd h (List.not_mem_nil _)

/-- The snapshot field written by an update action with an explicit percent. -/
theorem updateProgress_sets_percent (p : TaskProgress) (stg : Option String)
    (pc : ℚ) (t c f : Option ℤ) (ci : Option String) :
    (updateProgress p stg (some pc) t c f ci).progress_percent = pc := by
  unfold updateProgress
  cases stg <;> cases t <;> cases c <;> cases f <;> cases ci <;>
    dsimp only <;> split_ifs <;> rfl

/-- Claim C7 (amended): starting from the initial snapshot (percent 0),
every sequence of updates produced by the stdout phrase-matcher keeps the
percent within [0, 100]; the bound holds for the parser because each emitted
percent lies in [0, 100], not because `update_progress` clamps — it does
not, so a direct call can leave the range (see the counterexample). -/
theorem c7_percent_bounds :
    (∀ (task_id platform : String),
      0 ≤ (initProgress task_id platform).progress_percent ∧
      (initProgress task_id platform).progress_percent ≤ 100) ∧
    (∀ (p : TaskProgress) (line : String),
      0 ≤ p.progress_percent ∧ p.progress_percent ≤ 100 →
      0 ≤ (applyLine p line).progress_percent ∧
        (applyLine p line).progress_percent ≤ 100) ∧
    (∀ (p : TaskProgress) (ls : List String),
      0 ≤ p.progress_percent ∧ p.progress_percent ≤ 100 →
      0 ≤ (applyLines p ls).progress_percent ∧
        (applyLines p ls).progress_percent ≤ 100) := by
  have hfold : ∀ (acts : List PAction) (p : TaskProgress),
      (∀ a ∈ acts, ∀ stg pc t c, a = PAction.update stg pc t c → 0 ≤ pc ∧ pc ≤ 100) →
      0 ≤ p.progress_percent ∧ p.progress_percent ≤ 100 →
      0 ≤ (acts.foldl applyAction p).progress_percent ∧
        (acts.foldl applyAction p).progress_percent ≤ 100 := by
    intro acts
    induction acts with
    | nil => intro p _ hp; exact hp
    | cons a rest ih =>
      intro p ha hp
      rw [List.foldl_cons]
      refine ih _ (fun b hb => ha b (List.mem_cons_of_mem a hb)) ?_
      have hmem : a ∈ a :: rest := List.mem_cons_self a rest
      cases a with
      | update stg pc t c =>
        have hpc := ha _ hmem stg pc t c rfl
        simpa [applyAction, updateProgress_sets_percent] using hpc
      | logError m => exact hp
      | logInfo m => exact hp
  have hline : ∀ (p : TaskProgress) (line : String),
      0 ≤ p.progress_percent ∧ p.progress_percent ≤ 100 →
      0 ≤ (applyLine p line).progress_percent ∧
        (applyLine p line).progress_percent ≤ 100 := by
    intro p line hp
    refine hfold _ p ?_ hp
    intro a ha stg pc t c heq
    subst heq
    exact parseProgressLine_percent_bound line stg pc t c ha
  refine ⟨?_, hline, ?_⟩
  · intro task_id platform
    constructor <;> norm_num [initProgress]
  · intro p ls
    induction ls generalizing p with
    | nil => intro hp; exact hp
    | cons l rest ih =>
      intro hp
      rw [applyLines, List.foldl_cons]
      exact ih _ (hline p l hp)

/-- Claim C7, counterexample: `update_progress` performs no clamping, so a
direct progress-reporting call can push the percent to 150, outside
[0, 100]. -/
theorem c7_counterexample :
    (updateProgress (initProgress "t1" "xhs") none (some 150) none none none
      none).progress_percent = 150 ∧
    ¬((updateProgress (initProgress "t1" "xhs") none (some 150) none none none
      none).progress_percent ≤ 100) := by
  have h : (updateProgress (initProgress "t1" "xhs") none (some 150) none none none
      none).progress_percent = 150 := rfl
  refine ⟨h, ?_⟩
  rw [h]
  norm_num

/-- Claim C7, witness: the bound applied to a concrete parser-driven run. -/
theorem c7_witness :
    0 ≤ (applyLines (initProgress "t1" "xhs")
        ["开始爬取", "已爬取 3/5", "保存完成"]).progress_percent ∧
    (applyLines (initProgress "t1" "xhs")
        ["开始爬取", "已爬取 3/5", "保存完成"]).progress_percent ≤ 100 :=
  c7_percent_bounds.2.2 (initProgress "t1" "xhs") ["开始爬取", "已爬取 3/5", "保存完成"]
    (by constructor <;> norm_num [initProgress])

/-! ## Claim C1 -/

/-- Claim C1: evaluation of the job pipeline at the claimed scenario.  The
count parser does extract 42 from the stdout `保存 42 条`, but the stored
result of the job is a failure with item count 0: on the exit-code-0 path
`_execute_crawler_process` hits the unbound name `task` (adapter.py:385),
`_run_mediacrawler_process` then raises KeyError on `result[\x27message\x27]`
(adapter.py:149) before storing the genuine result, and its except-branch
stores a failure dict and re-raises TypeError on the `asyncio.Task` entry
(adapter.py:181). -/
theorem c1_item_count_code_bug :
    parseDataCountFromOutput "保存 42 条" = 42 ∧
    lookup? (finishJob (startCrawlerTask ⟨[], []⟩ "t1") "t1"
        (executeCrawlerProcess 0 ["保存 42 条"] [])).task_results "t1" =
      some { success := false
             message := some ("执行MediaCrawler时发生错误: " ++ keyErrorMessageMsg)
             error := none
             data_count := 0
             error_count := 1 } ∧
    lookup? (finishJob (startCrawlerTask ⟨[], []⟩ "t1") "t1"
        (executeCrawlerProcess 0 ["保存 42 条"] [])).running_tasks "t1" =
      some { done := true, exc := some typeErrorTaskMsg } := by
  refine ⟨by decide, by decide, by decide⟩

/-! ## Claim C9 -/

/-- Claim C9, counterexample: after a job finishes, its entry is never
removed from the running-task table, so cancelling the finished job does not
return false — the `await` re-raises the exception the task ended with and
`stop_task` exits exceptionally (modelled as `none`). -/
theorem c9_counterexample :
    ((lookup? (finishJob (startCrawlerTask ⟨[], []⟩ "t1") "t1"
        (executeCrawlerProcess 0 ["保存 42 条"] [])).running_tasks "t1").map
        TaskHandle.done = some true) ∧
    (stopTask (finishJob (startCrawlerTask ⟨[], []⟩ "t1") "t1"
        (executeCrawlerProcess 0 ["保存 42 条"] [])) "t1").1 ≠ some false ∧
    (stopTask (finishJob (startCrawlerTask ⟨[], []⟩ "t1") "t1"
        (executeCrawlerProcess 0 ["保存 42 条"] [])) "t1").1 = none := by
  refine ⟨by decide, by decide, by decide⟩

/-- Claim C9 (amended): `cancel` returns false exactly when the job id is
absent from the running-task table (unknown, or removed by an earlier
cancel); for a stored handle that has not ended with an exception — in
particular any still-running job — it returns true, stores the
manually-stopped failure result and removes the handle.  Finished jobs stay
in the table, so cancelling them never returns false. -/
theorem c9_cancel_characterization :
    (∀ (st : AdapterState) (task_id : String),
      (stopTask st task_id).1 = some false ↔
        lookup? st.running_tasks task_id = none) ∧
    (∀ (st : AdapterState) (task_id : String) (h : TaskHandle),
      lookup? st.running_tasks task_id = some h → h.exc = none →
      stopTask st task_id =
        (some true,
         { running_tasks := eraseKey st.running_tasks task_id
           task_results := setKey st.task_results task_id manuallyStoppedResult })) := by
  constructor
  · intro st task_id
    unfold stopTask
    cases hL : lookup? st.running_tasks task_id with
    | none => simp
    | some h =>
      by_cases hd : (h.done && h.exc.isSome) = true
      · simp [hd]
      · simp [hd]
  · intro st task_id h hL hexc
    unfold stopTask
    rw [hL]
    simp [hexc]

/-- Claim C9, witness: cancelling a still-running job returns true and
stores the manually-stopped failure. -/
theorem c9_witness :
    stopTask (startCrawlerTask ⟨[], []⟩ "t1") "t1" =
      (some true,
       { running_tasks := [], task_results := [("t1", manuallyStoppedResult)] }) := by
  have h := c9_cancel_characterization.2 (startCrawlerTask ⟨[], []⟩ "t1") "t1"
    { done := false, exc := none } (by decide) rfl
  simpa [startCrawlerTask, setKey, eraseKey] using h
